import Mathlib

/-!
Verification of the authentication and credential-protection subsystem of the
panicless-library backend (Rust, under src/backend/src).

The development shallowly embeds the Rust code: pure helpers become Lean
functions on Nat byte lists and Lean strings; database-touching handlers become
pure functions threading an explicit database state; machine bytes (u8) are
Nat values with an explicit bound of 256 where it matters; fallible Rust code
returning Result of AppError becomes Except AppError.

External crates used by the code (base64, chacha20poly1305, jsonwebtoken) are
modelled from their documented contracts where the repository only calls into
them; each such model is marked in its doc comment.
-/

set_option maxRecDepth 4000

/-- Error taxonomy of the backend, from src/backend/src/errors.rs (enum
AppError).  Payloads that are foreign error values in Rust (sqlx, jsonwebtoken)
are carried here as message strings. -/
inductive AppError where
  | Database (msg : String)
  | Authentication (msg : String)
  | Authorization (msg : String)
  | Validation (msg : String)
  | NotFound (msg : String)
  | Conflict (msg : String)
  | Internal (msg : String)
  | Jwt (msg : String)
  | PasswordHash
deriving DecidableEq, Repr

/-- Recogniser for the Authentication error kind. -/
def AppError.isAuthentication : AppError → Bool
  | .Authentication _ => true
  | _ => false

/-- Recogniser for the Validation error kind. -/
def AppError.isValidation : AppError → Bool
  | .Validation _ => true
  | _ => false

/-- Recogniser for the Internal error kind. -/
def AppError.isInternal : AppError → Bool
  | .Internal _ => true
  | _ => false

/-! ## Base64 (standard alphabet with padding)

Modelled from the documented contract of the base64 crate functions
base64::encode and base64::decode (standard alphabet, padded), which the
repository calls in src/backend/src/crypto/mod.rs and
src/backend/src/handlers/oauth.rs. -/

/-- The 64 symbols of the standard base64 alphabet, in value order. -/
def b64Alphabet : List Char :=
  "ABCDEFGHIJKLMNOPQRSTUVWXYZabcdefghijklmnopqrstuvwxyz0123456789+/".toList

/-- Symbol for a 6-bit value (callers only use values below 64). -/
def encChar (v : Nat) : Char := b64Alphabet.getD v ' '

/-- Value of a base64 symbol, none for a character outside the alphabet. -/
def decChar (c : Char) : Option Nat := b64Alphabet.indexOf? c

/-- Base64 encoding of a byte sequence, three bytes to four symbols, with
trailing = padding exactly as the standard padded encoding produces it. -/
def base64Encode : List Nat → List Char
  | [] => []
  | [a] => [encChar (a / 4), encChar (a % 4 * 16), '=', '=']
  | [a, b] => [encChar (a / 4), encChar (a % 4 * 16 + b / 16), encChar (b % 16 * 4), '=']
  | a :: b :: c :: rest =>
      encChar (a / 4) :: encChar (a % 4 * 16 + b / 16) ::
      encChar (b % 16 * 4 + c / 64) :: encChar (c % 64) :: base64Encode rest

/-- Base64 decoding: accepts only well-padded input whose length is a multiple
of four, with padding confined to the final group and with zero unused bits in
the final symbol, returning none otherwise (the strict behaviour of
base64::decode). -/
def base64Decode : List Char → Option (List Nat)
  | [] => some []
  | c1 :: c2 :: c3 :: c4 :: rest =>
      match decChar c1, decChar c2 with
      | some v1, some v2 =>
          if c3 = '=' then
            if c4 = '=' ∧ rest = [] ∧ v2 % 16 = 0 then
              some [v1 * 4 + v2 / 16]
            else none
          else
            match decChar c3 with
            | some v3 =>
                if c4 = '=' then
                  if rest = [] ∧ v3 % 4 = 0 then
                    some [v1 * 4 + v2 / 16, v2 % 16 * 16 + v3 / 4]
                  else none
                else
                  match decChar c4 with
                  | some v4 =>
                      (base64Decode rest).map
                        (fun tl => (v1 * 4 + v2 / 16) :: (v2 % 16 * 16 + v3 / 4) ::
                                   (v3 % 4 * 64 + v4) :: tl)
                  | none => none
            | none => none
      | _, _ => none
  | _ => none

/-! ## Random code and token generation

From src/backend/src/handlers/oauth.rs (generate_code, generate_token).  The
thread-local RNG output is passed in explicitly as the list of random bytes the
Rust code draws; everything after the draw is deterministic and is translated
directly: base64-encode the bytes, keep only alphanumeric, underscore or
hyphen characters, take the first 48 (respectively 96) characters. -/

/-- Character filter used by generate_code and generate_token: the Rust
predicate is c.is_alphanumeric() or c is an underscore or hyphen; on the ASCII
output of base64 encoding this coincides with ASCII alphanumeric. -/
def isTokenChar (c : Char) : Bool := c.isAlphanum || c = '_' || c = '-'

/-- Authorization-code generation for the given 32 drawn random bytes. -/
def generate_code (random_bytes : List Nat) : List Char :=
  ((base64Encode random_bytes).filter isTokenChar).take 48

/-- Opaque access-token generation for the given 64 drawn random bytes. -/
def generate_token (random_bytes : List Nat) : List Char :=
  ((base64Encode random_bytes).filter isTokenChar).take 96

/-! ## AEAD cipher model

Modelled from the documented AEAD contract of the chacha20poly1305 crate
(ChaCha20Poly1305), which src/backend/src/crypto/mod.rs calls through: sealing
a plaintext under a 32-byte key and a 12-byte nonce appends a 16-byte
authentication tag; opening checks the tag against the key, nonce and
ciphertext and recovers the plaintext exactly when the tag verifies.  The
concrete stream and tag functions below are an executable stand-in with that
interface; only the interface properties (open-after-seal succeeds, opening
with a failing tag is reported as failure) are used in the theorems. -/

/-- Mixing step for the stand-in keyed functions. -/
def mixStep (a b : Nat) : Nat := (a * 131 + b + 7) % 256

/-- Keystream byte at position i derived from key and nonce. -/
def ksByte (key nonce : List Nat) (i : Nat) : Nat :=
  (List.foldl mixStep 17 (key ++ nonce) + i * 101) % 256

/-- Byte-wise addition of the keystream, starting at position i. -/
def addKs (key nonce : List Nat) : Nat → List Nat → List Nat
  | _, [] => []
  | i, b :: rest => (b + ksByte key nonce i) % 256 :: addKs key nonce (i + 1) rest

/-- Byte-wise removal of the keystream, starting at position i. -/
def subKs (key nonce : List Nat) : Nat → List Nat → List Nat
  | _, [] => []
  | i, c :: rest => (c + 256 - ksByte key nonce i) % 256 :: subKs key nonce (i + 1) rest

/-- The 16-byte authentication tag over key, nonce and ciphertext. -/
def tagBytes (key nonce ct : List Nat) : List Nat :=
  let seed := List.foldl mixStep (ct.length % 256) (key ++ nonce ++ ct)
  (List.range 16).map (fun i => (seed + i * 31) % 256)

/-- AEAD sealing: ciphertext followed by the 16-byte tag. -/
def aeadEncrypt (key nonce plaintext : List Nat) : List Nat :=
  let ct := addKs key nonce 0 plaintext
  ct ++ tagBytes key nonce ct

/-- AEAD opening: splits off the trailing 16-byte tag, recomputes it and
returns the recovered plaintext only when the tag matches. -/
def aeadDecrypt (key nonce data : List Nat) : Option (List Nat) :=
  if data.length < 16 then none
  else
    let ct := data.take (data.length - 16)
    let tg := data.drop (data.length - 16)
    if tg = tagBytes key nonce ct then some (subKs key nonce 0 ct) else none

/-! ## UTF-8 validity

Rust strings are exactly the UTF-8-valid byte sequences; the model represents
a Rust String or str slice by its byte sequence together with this validity
predicate, so String::from_utf8 in the source becomes a validity test on the
recovered bytes. -/

/-- Continuation-byte test for UTF-8. -/
def isCont (b : Nat) : Bool := 0x80 ≤ b && b ≤ 0xBF

/-- UTF-8 validity of a byte sequence, including the overlong-encoding and
surrogate restrictions of the standard definition. -/
def utf8Valid : List Nat → Bool
  | [] => true
  | b :: rest =>
      if b ≤ 0x7F then utf8Valid rest
      else
        match rest with
        | [] => false
        | c1 :: rest1 =>
            if 0xC2 ≤ b && b ≤ 0xDF then isCont c1 && utf8Valid rest1
            else
              match rest1 with
              | [] => false
              | c2 :: rest2 =>
                  if b = 0xE0 then
                    (0xA0 ≤ c1 && c1 ≤ 0xBF) && isCont c2 && utf8Valid rest2
                  else if (0xE1 ≤ b && b ≤ 0xEC) || b = 0xEE || b = 0xEF then
                    isCont c1 && isCont c2 && utf8Valid rest2
                  else if b = 0xED then
                    (0x80 ≤ c1 && c1 ≤ 0x9F) && isCont c2 && utf8Valid rest2
                  else
                    match rest2 with
                    | [] => false
                    | c3 :: rest3 =>
                        if b = 0xF0 then
                          (0x90 ≤ c1 && c1 ≤ 0xBF) && isCont c2 && isCont c3 &&
                            utf8Valid rest3
                        else if 0xF1 ≤ b && b ≤ 0xF3 then
                          isCont c1 && isCont c2 && isCont c3 && utf8Valid rest3
                        else if b = 0xF4 then
                          (0x80 ≤ c1 && c1 ≤ 0x8F) && isCont c2 && isCont c3 &&
                            utf8Valid rest3
                        else false

/-- Rust String::from_utf8 on a recovered byte sequence: succeeds exactly on
UTF-8-valid bytes, and the resulting Rust String is represented by those same
bytes. -/
def stringFromUtf8 (l : List Nat) : Option (List Nat) :=
  if utf8Valid l then some l else none

/-! ## Credential vault

From src/backend/src/crypto/mod.rs (TokenCrypto).  Plaintext strings are
represented by their UTF-8 byte sequences; ciphertext blobs by the base64
character string the Rust code returns.  The fresh random nonce drawn inside
encrypt is passed in explicitly. -/

/-- Vault state: the 32-byte key, as built by TokenCrypto::new. -/
structure TokenCrypto where
  key : List Nat
deriving DecidableEq, Repr

/-- Key construction from the base64-encoded configuration value, failing as
TokenCrypto::new does when the value does not decode or does not decode to
exactly 32 bytes. -/
def TokenCrypto.new (key_base64 : List Char) : Except AppError TokenCrypto :=
  match base64Decode key_base64 with
  | none => .error (.Internal "Invalid encryption key format")
  | some key_bytes =>
      if key_bytes.length ≠ 32 then
        .error (.Internal "Encryption key must be exactly 32 bytes (44 base64 characters)")
      else .ok ⟨key_bytes⟩

/-- Vault encryption of a plaintext (as UTF-8 bytes) with the drawn 12-byte
nonce: base64 of nonce followed by the sealed data.  The Rust function can
only fail if the cipher itself fails, which the AEAD contract excludes for
these inputs, so the model is total. -/
def TokenCrypto.encrypt (tc : TokenCrypto) (nonce_bytes plaintext : List Nat) :
    List Char :=
  base64Encode (nonce_bytes ++ aeadEncrypt tc.key nonce_bytes plaintext)

/-- Vault decryption, following TokenCrypto::decrypt step by step: base64
decode (Internal error on failure), length check against 12 (Internal error),
split of the 12-byte nonce, AEAD opening (Authentication error on failure),
UTF-8 check of the recovered bytes (Internal error). -/
def TokenCrypto.decrypt (tc : TokenCrypto) (encrypted_base64 : List Char) :
    Except AppError (List Nat) :=
  match base64Decode encrypted_base64 with
  | none => .error (.Internal "Invalid encrypted token format")
  | some encrypted_data =>
      if encrypted_data.length < 12 then
        .error (.Internal "Encrypted token is too short (corrupted?)")
      else
        let nonce_bytes := encrypted_data.take 12
        let ciphertext := encrypted_data.drop 12
        match aeadDecrypt tc.key nonce_bytes ciphertext with
        | none => .error (.Authentication "Failed to decrypt token (corrupted or tampered?)")
        | some plaintext => stringFromUtf8 plaintext
            |>.elim (.error (.Internal "Decrypted token is not valid UTF-8")) .ok

/-! ## Signed tokens (JWT)

From src/backend/src/middleware/auth.rs.  The wire format of a signed token
is abstracted: a bearer credential is either a structured signed token
carrying its payload and signature, or an unstructured random string (the
shape of the opaque OAuth tokens minted by the token-exchange step); the
serialisation of a signed token is injective, so tokens are compared as
values.  The jsonwebtoken crate behind encode and decode is modelled from its
documented contract: encode signs the payload with a keyed signature (the
executable stand-in mockSig); decode with Validation::default checks the
signature and then the exp claim against the current time with the default
leeway of 60 seconds, rejecting exactly when exp is smaller than now minus
the leeway. -/

/-- Claims payload, from struct Claims in src/backend/src/middleware/auth.rs. -/
structure Claims where
  sub : Int
  username : String
  exp : Nat
  iat : Nat
  token_type : String
deriving DecidableEq, Repr

/-- UTF-8 encoding of one character (characters are scalar values, so the
four standard ranges cover every case). -/
def charUtf8 (c : Char) : List Nat :=
  let n := c.toNat
  if n < 0x80 then [n]
  else if n < 0x800 then [0xC0 + n / 64, 0x80 + n % 64]
  else if n < 0x10000 then [0xE0 + n / 4096, 0x80 + n / 64 % 64, 0x80 + n % 64]
  else [0xF0 + n / 262144, 0x80 + n / 4096 % 64, 0x80 + n / 64 % 64, 0x80 + n % 64]

/-- UTF-8 bytes of a Lean string, standing for Rust str::as_bytes. -/
def strBytes (s : String) : List Nat :=
  s.data.foldr (fun c acc => charUtf8 c ++ acc) []

/-- Claims::new_access_token: issued now, expiring after the configured
access-token TTL (a nonnegative number of seconds). -/
def Claims.new_access_token (user_id : Int) (username : String) (now expiry : Nat) :
    Claims :=
  { sub := user_id, username := username, exp := now + expiry, iat := now,
    token_type := "access" }

/-- Claims::new_refresh_token: issued now, expiring after the configured
refresh-token TTL. -/
def Claims.new_refresh_token (user_id : Int) (username : String) (now expiry : Nat) :
    Claims :=
  { sub := user_id, username := username, exp := now + expiry, iat := now,
    token_type := "refresh" }

/-- Executable stand-in for the HS256 keyed signature over the claims
payload. -/
def mockSig (secret : String) (c : Claims) : Nat :=
  List.foldl mixStep 23
    (strBytes secret ++ strBytes c.username ++ strBytes c.token_type ++
     [c.exp, c.iat, c.sub.natAbs])

/-- A bearer credential: either a structured signed token or an unstructured
random string such as the opaque OAuth access tokens. -/
inductive BearerToken where
  | jwt (payload : Claims) (sig : Nat)
  | raw (s : List Char)
deriving DecidableEq, Repr

/-- generate_jwt from src/backend/src/middleware/auth.rs; jsonwebtoken encode
only fails on a serialisation error, which cannot occur for this payload, so
the model is total. -/
def generate_jwt (claims : Claims) (secret : String) : BearerToken :=
  .jwt claims (mockSig secret claims)

/-- Default leeway in seconds applied by jsonwebtoken Validation::default. -/
def jwtLeeway : Nat := 60

/-- verify_jwt from src/backend/src/middleware/auth.rs: jsonwebtoken decode
with Validation::default, that is signature check followed by the expiry
check with the default leeway (reject exactly when exp is below now minus
leeway, with saturating subtraction). -/
def verify_jwt (token : BearerToken) (secret : String) (now : Nat) :
    Except AppError Claims :=
  match token with
  | .raw _ => .error (.Jwt "InvalidToken")
  | .jwt payload sig =>
      if sig ≠ mockSig secret payload then .error (.Jwt "InvalidSignature")
      else if payload.exp < now - jwtLeeway then .error (.Jwt "ExpiredSignature")
      else .ok payload

/-! ## Persistent state

The rows carry the columns the modelled queries read or write; timestamps are
epoch seconds. -/

/-- Row of the users table (columns used by the modelled handlers). -/
structure UserRow where
  id : Int
  username : String
deriving DecidableEq, Repr

/-- Row of the oauth_codes table. -/
structure OAuthCodeRow where
  id : Nat
  code : List Char
  client_id : String
  user_id : Int
  redirect_uri : String
  scope : Option String
  expires_at : Nat
  used_at : Option Nat
deriving DecidableEq, Repr

/-- Row of the oauth_tokens table; the token string is represented by the
bearer-token value it denotes. -/
structure OAuthTokenRow where
  token : BearerToken
  client_id : String
  user_id : Int
  scope : String
  expires_at : Nat
deriving DecidableEq, Repr

/-- Row of the connectors table. -/
structure ConnectorRow where
  id : Nat
  user_id : Int
  provider : String
  encrypted_token : List Char
  is_active : Bool
  last_used_at : Option Nat
  created_at : Nat
  updated_at : Nat
deriving DecidableEq, Repr

/-- Database state seen by the modelled handlers, with counters for the
serial id columns. -/
structure Db where
  users : List UserRow
  oauth_codes : List OAuthCodeRow
  oauth_tokens : List OAuthTokenRow
  connectors : List ConnectorRow
  next_code_id : Nat
  next_connector_id : Nat
deriving DecidableEq, Repr

/-- Configuration fields read by the modelled handlers: those of Config in
src/backend/src/config.rs plus the OAuth client pair that
src/backend/src/handlers/oauth.rs reads from the same struct. -/
structure Config where
  jwt_secret : String
  jwt_access_token_expiry : Nat
  jwt_refresh_token_expiry : Nat
  encryption_key : List Char
  oauth_client_id : String
  oauth_client_secret : String
deriving DecidableEq, Repr

/-! ## Dual-mode authentication gate

From src/backend/src/middleware/auth.rs (auth_middleware lines 86 to 110 and
verify_oauth_token). -/

/-- verify_oauth_token: exact-match lookup of the bearer token among the
opaque OAuth access tokens, expiry check against now, then username load; a
missing user row makes fetch_one surface a database error. -/
def verify_oauth_token (db : Db) (token : BearerToken) (now : Nat) :
    Except AppError Claims :=
  match db.oauth_tokens.find? (fun r => decide (r.token = token)) with
  | none => .error (.Authentication "OAuth token not found")
  | some row =>
      if row.expires_at < now then .error (.Authentication "OAuth token expired")
      else
        match db.users.find? (fun u => decide (u.id = row.user_id)) with
        | none => .error (.Database "RowNotFound")
        | some user =>
            .ok { sub := row.user_id, username := user.username,
                  exp := row.expires_at, iat := now, token_type := "access" }

/-- Dual-mode validation of the extracted bearer token, the core of
auth_middleware: signed-token verification first, with the access-kind check;
on any verification failure, fallback to the opaque-token lookup; any failure
of the fallback is collapsed into the single Invalid token authentication
error. -/
def authenticateBearer (db : Db) (config : Config) (now : Nat)
    (token : BearerToken) : Except AppError Claims :=
  match verify_jwt token config.jwt_secret now with
  | .ok jwt_claims =>
      if jwt_claims.token_type ≠ "access" then
        .error (.Authentication "Invalid token type")
      else .ok jwt_claims
  | .error _ =>
      match verify_oauth_token db token now with
      | .ok oauth_claims => .ok oauth_claims
      | .error _ => .error (.Authentication "Invalid token")

/-- Response shape shared by register, login and refresh. -/
structure AuthResponse where
  access_token : BearerToken
  refresh_token : BearerToken
  token_type : String
  expires_in : Nat
  user : UserRow
deriving DecidableEq, Repr

/-- The refresh handler from src/backend/src/handlers/auth.rs: extract the
refresh_token field, verify it as a signed token, require the refresh kind,
require the user to still exist, then issue a fresh pair. -/
def refresh (db : Db) (config : Config) (body_refresh_token : Option BearerToken)
    (now : Nat) : Except AppError AuthResponse :=
  match body_refresh_token with
  | none => .error (.Validation "Missing refresh_token field")
  | some token =>
      match verify_jwt token config.jwt_secret now with
      | .error e => .error e
      | .ok claims =>
          if claims.token_type ≠ "refresh" then
            .error (.Authentication "Invalid token type")
          else
            match db.users.find? (fun u => decide (u.id = claims.sub)) with
            | none => .error (.Authentication "User not found")
            | some user =>
                let access_claims := Claims.new_access_token user.id user.username
                  now config.jwt_access_token_expiry
                let refresh_claims := Claims.new_refresh_token user.id user.username
                  now config.jwt_refresh_token_expiry
                .ok { access_token := generate_jwt access_claims config.jwt_secret,
                      refresh_token := generate_jwt refresh_claims config.jwt_secret,
                      token_type := "Bearer",
                      expires_in := config.jwt_access_token_expiry,
                      user := user }

/-! ## Authorization-code grant handlers

From src/backend/src/handlers/oauth.rs.  Each handler becomes a pure function
from the database state (plus the request, the current time and the random
bytes the code draws) to a result together with the successor state; a query
that fails leaves the state as accumulated so far, matching execution of the
individual statements directly on the connection pool with no surrounding
transaction.  INSERT statements enforce the primary-key uniqueness of the
oauth_codes.code and oauth_tokens.token columns. -/

/-- Request shape of the authorize endpoint. -/
structure AuthorizeRequest where
  client_id : String
  redirect_uri : String
  response_type : String
  scope : Option String
  state : Option String
deriving DecidableEq, Repr

/-- Response of the authorize endpoint. -/
structure AuthorizeResponse where
  code : List Char
  state : Option String
deriving DecidableEq, Repr

/-- Request shape of the token endpoint. -/
structure TokenRequest where
  client_id : String
  client_secret : String
  code : List Char
  grant_type : String
  redirect_uri : String
deriving DecidableEq, Repr

/-- Response of the token endpoint. -/
structure TokenResponse where
  access_token : List Char
  token_type : String
  expires_in : Nat
  scope : String
  jwt_token : BearerToken
deriving DecidableEq, Repr

/-- INSERT INTO oauth_codes, failing on a duplicate code primary key. -/
def insertCode (db : Db) (row : OAuthCodeRow) : Except AppError Db :=
  if db.oauth_codes.any (fun r => decide (r.code = row.code)) then
    .error (.Database "duplicate key value violates unique constraint oauth_codes_pkey")
  else
    .ok { db with oauth_codes := db.oauth_codes ++ [row],
                  next_code_id := db.next_code_id + 1 }

/-- INSERT INTO oauth_tokens, failing on a duplicate token primary key. -/
def insertToken (db : Db) (row : OAuthTokenRow) : Except AppError Db :=
  if db.oauth_tokens.any (fun r => decide (r.token = row.token)) then
    .error (.Database "duplicate key value violates unique constraint oauth_tokens_pkey")
  else
    .ok { db with oauth_tokens := db.oauth_tokens ++ [row] }

/-- The authorize handler: client check, response_type check, code
generation from the drawn random bytes, insertion with a 10-minute expiry
bound to the authenticated user. -/
def authorize (db : Db) (config : Config) (claims : Claims)
    (params : AuthorizeRequest) (now : Nat) (rand : List Nat) :
    Except AppError AuthorizeResponse × Db :=
  if params.client_id ≠ config.oauth_client_id then
    (.error (.Authentication "Invalid client_id"), db)
  else if params.response_type ≠ "code" then
    (.error (.Validation "Only response_type=code is supported"), db)
  else
    let code := generate_code rand
    let expires_at := now + 600
    let row : OAuthCodeRow :=
      { id := db.next_code_id, code := code, client_id := params.client_id,
        user_id := claims.sub, redirect_uri := params.redirect_uri,
        scope := params.scope, expires_at := expires_at, used_at := none }
    match insertCode db row with
    | .error e => (.error e, db)
    | .ok db2 => (.ok { code := code, state := params.state }, db2)

/-- Data the token handler carries from its read phase into its write
phase. -/
structure TokenReadOk where
  code_id : Nat
  user_id : Int
  scope : Option String
deriving DecidableEq, Repr

/-- Read phase of the token handler (oauth.rs lines 109 to 153): client
credentials, grant type, code lookup by (code, client_id), expiry check, the
already-used check and the redirect_uri comparison, all on the state as read. -/
def tokenRead (db : Db) (config : Config) (payload : TokenRequest) (now : Nat) :
    Except AppError TokenReadOk :=
  if payload.client_id ≠ config.oauth_client_id ∨
     payload.client_secret ≠ config.oauth_client_secret then
    .error (.Authentication "Invalid client credentials")
  else if payload.grant_type ≠ "authorization_code" then
    .error (.Validation "Only grant_type=authorization_code is supported")
  else
    match db.oauth_codes.find?
        (fun r => decide (r.code = payload.code ∧ r.client_id = payload.client_id)) with
    | none => .error (.Authentication "Authorization code not found")
    | some row =>
        if row.expires_at < now then
          .error (.Validation "Authorization code expired")
        else if row.used_at.isSome then
          .error (.Authentication "Authorization code already used")
        else if row.redirect_uri ≠ payload.redirect_uri then
          .error (.Validation "Redirect URI mismatch")
        else .ok { code_id := row.id, user_id := row.user_id, scope := row.scope }

/-- Write phase of the token handler (oauth.rs lines 155 to 225): mark the
code used by id (an unconditional UPDATE), load the user (fetch_one, a
database error when missing), mint and insert the opaque access token with a
24-hour expiry, and mint the companion signed access token.  Each statement
runs directly on the pool, so the state reflects every statement executed
before a failure. -/
def tokenWrite (db : Db) (config : Config) (payload : TokenRequest)
    (rd : TokenReadOk) (now : Nat) (rand : List Nat) :
    Except AppError TokenResponse × Db :=
  let markUsed := fun (r : OAuthCodeRow) =>
    if r.id = rd.code_id then { r with used_at := some now } else r
  let db1 := { db with oauth_codes := db.oauth_codes.map markUsed }
  match db1.users.find? (fun u => decide (u.id = rd.user_id)) with
  | none => (.error (.Database "RowNotFound"), db1)
  | some user =>
      let access_token := generate_token rand
      let token_expires_at := now + 86400
      let scope_str := rd.scope.getD "all"
      let trow : OAuthTokenRow :=
        { token := .raw access_token, client_id := payload.client_id,
          user_id := rd.user_id, scope := scope_str,
          expires_at := token_expires_at }
      match insertToken db1 trow with
      | .error e => (.error e, db1)
      | .ok db2 =>
          let claims : Claims :=
            { sub := rd.user_id, username := user.username,
              exp := now + 86400, iat := now, token_type := "access" }
          (.ok { access_token := access_token, token_type := "Bearer",
                 expires_in := 86400, scope := scope_str,
                 jwt_token := generate_jwt claims config.jwt_secret }, db2)

/-- Write phase applied to the outcome of a read phase. -/
def tokenPhased (db : Db) (config : Config) (payload : TokenRequest)
    (rd : Except AppError TokenReadOk) (now : Nat) (rand : List Nat) :
    Except AppError TokenResponse × Db :=
  match rd with
  | .error e => (.error e, db)
  | .ok r => tokenWrite db config payload r now rand

/-- The token handler: its read phase followed by its write phase on the same
state. -/
def token (db : Db) (config : Config) (payload : TokenRequest) (now : Nat)
    (rand : List Nat) : Except AppError TokenResponse × Db :=
  tokenPhased db config payload (tokenRead db config payload now) now rand

/-- Two concurrent executions of the token handler under the schedule in
which both read phases run before either write phase; each execution is still
its own read followed by its own write, only the global interleaving differs. -/
def tokenInterleavedRRWW (db : Db) (config : Config)
    (p1 p2 : TokenRequest) (now : Nat) (rand1 rand2 : List Nat) :
    (Except AppError TokenResponse × Except AppError TokenResponse) × Db :=
  let rd1 := tokenRead db config p1 now
  let rd2 := tokenRead db config p2 now
  let o1 := tokenPhased db config p1 rd1 now rand1
  let o2 := tokenPhased o1.2 config p2 rd2 now rand2
  ((o1.1, o2.1), o2.2)

/-! ## Connector upsert

From src/backend/src/handlers/connectors.rs (create_or_update_connector) and
src/backend/src/models/connector.rs (validate_provider).  The upsert models
INSERT ... ON CONFLICT (user_id, provider) DO UPDATE SET encrypted_token,
updated_at: when a row with the conflicting key exists it is updated in
place, otherwise a fresh row is inserted; connector rows are created active
with no last_used_at, per the column defaults of the connectors table. -/

/-- Request body of POST /api/connectors. -/
structure CreateConnectorRequest where
  provider : String
  api_token : String
deriving DecidableEq, Repr

/-- Whitespace test used by the trim model (the ASCII whitespace characters;
Rust str::trim strips the Unicode White_Space set, of which these are the
ones relevant to API tokens). -/
def isWhitespaceChar (c : Char) : Bool :=
  c = ' ' || c = '\t' || c = '\n' || c = '\r'

/-- Rust str::trim on the character sequence of a string. -/
def strTrim (s : String) : List Char :=
  ((s.data.dropWhile isWhitespaceChar).reverse.dropWhile isWhitespaceChar).reverse

/-- validate_provider from src/backend/src/models/connector.rs. -/
def validate_provider (provider : String) : Except String Unit :=
  if provider = "anthropic" ∨ provider = "gemini" ∨ provider = "chatgpt" then
    .ok ()
  else
    .error "Invalid provider. Must be one of: anthropic, gemini, chatgpt"

/-- The create_or_update_connector handler: provider validation, the
non-empty token check, vault construction and encryption (taking the drawn
nonce explicitly), then the upsert keyed on (user_id, provider). -/
def create_or_update_connector (db : Db) (config : Config) (claims : Claims)
    (payload : CreateConnectorRequest) (now : Nat) (nonce : List Nat) :
    Except AppError ConnectorRow × Db :=
  match validate_provider payload.provider with
  | .error e => (.error (.Validation e), db)
  | .ok _ =>
      if (strTrim payload.api_token).isEmpty then
        (.error (.Validation "API token cannot be empty"), db)
      else
        match TokenCrypto.new config.encryption_key with
        | .error e => (.error e, db)
        | .ok crypto =>
            let encrypted_token := crypto.encrypt nonce (strBytes payload.api_token)
            match db.connectors.find?
                (fun r => decide (r.user_id = claims.sub ∧
                                  r.provider = payload.provider)) with
            | some r0 =>
                let r1 := { r0 with encrypted_token := encrypted_token,
                                    updated_at := now }
                let upd := fun (r : ConnectorRow) =>
                  if r.user_id = claims.sub ∧ r.provider = payload.provider
                  then { r with encrypted_token := encrypted_token,
                                updated_at := now }
                  else r
                let db2 := { db with connectors := db.connectors.map upd }
                (.ok r1, db2)
            | none =>
                let r1 : ConnectorRow :=
                  { id := db.next_connector_id, user_id := claims.sub,
                    provider := payload.provider,
                    encrypted_token := encrypted_token, is_active := true,
                    last_used_at := none, created_at := now, updated_at := now }
                (.ok r1, { db with connectors := db.connectors ++ [r1],
                                   next_connector_id := db.next_connector_id + 1 })

/-! ## Concrete fixtures used by witnesses and counterexamples -/

deriving instance DecidableEq for Except

/-- Recogniser for success of a handler result. -/
def isOkResult {a : Type} : Except AppError a → Bool
  | .ok _ => true
  | .error _ => false

/-- Bool view of whether a result is an Authentication error. -/
def isAuthErrorResult {a : Type} : Except AppError a → Bool
  | .error e => e.isAuthentication
  | .ok _ => false

/-- Configuration fixture. -/
def cfg1 : Config :=
  { jwt_secret := "s", jwt_access_token_expiry := 3600,
    jwt_refresh_token_expiry := 604800,
    encryption_key := base64Encode (List.replicate 32 0),
    oauth_client_id := "cid", oauth_client_secret := "sec" }

/-- User fixture. -/
def user1 : UserRow := { id := 1, username := "alice" }

/-- Fresh, unused, unexpired authorization-code row fixture. -/
def code1 : OAuthCodeRow :=
  { id := 1, code := ['C'], client_id := "cid", user_id := 1,
    redirect_uri := "R", scope := none, expires_at := 1000, used_at := none }

/-- Well-formed token-exchange request matching code1 and cfg1. -/
def req1 : TokenRequest :=
  { client_id := "cid", client_secret := "sec", code := ['C'],
    grant_type := "authorization_code", redirect_uri := "R" }

/-- Opaque-token row fixture for the gate. -/
def tokrow1 : OAuthTokenRow :=
  { token := .raw ['T'], client_id := "cid", user_id := 1, scope := "all",
    expires_at := 1000 }

/-- Database fixture with one user, one fresh code and one opaque token. -/
def db1 : Db :=
  { users := [user1], oauth_codes := [code1], oauth_tokens := [tokrow1],
    connectors := [], next_code_id := 2, next_connector_id := 1 }

/-- Database fixture for the redemption race: one user, one fresh code, no
tokens. -/
def db4 : Db :=
  { users := [user1], oauth_codes := [code1], oauth_tokens := [],
    connectors := [], next_code_id := 2, next_connector_id := 1 }

/-- Database fixture in which the opaque token that the all-zero random draw
produces is already present, so the access-token INSERT of the exchange
fails. -/
def db5 : Db :=
  { users := [user1], oauth_codes := [code1],
    oauth_tokens := [{ token := .raw (generate_token (List.replicate 64 0)),
                       client_id := "cid", user_id := 1, scope := "all",
                       expires_at := 5 }],
    connectors := [], next_code_id := 2, next_connector_id := 1 }

/-- Copy of code1 that has already been redeemed. -/
def code1u : OAuthCodeRow := { code1 with used_at := some 1 }

/-- Database fixture whose only code is already used. -/
def db3 : Db :=
  { users := [user1], oauth_codes := [code1u], oauth_tokens := [],
    connectors := [], next_code_id := 2, next_connector_id := 1 }

/-- Soft-disabled connector row fixture for user 1 and provider anthropic. -/
def conn1 : ConnectorRow :=
  { id := 1, user_id := 1, provider := "anthropic", encrypted_token := [],
    is_active := false, last_used_at := some 7, created_at := 2, updated_at := 3 }

/-- Database fixture holding only the disabled connector. -/
def db6 : Db :=
  { users := [user1], oauth_codes := [], oauth_tokens := [],
    connectors := [conn1], next_code_id := 1, next_connector_id := 2 }

/-! ## Helper lemmas -/

lemma decChar_encChar (v : Nat) (h : v < 64) : decChar (encChar v) = some v := by
  interval_cases v <;> decide

lemma encChar_ne_eq (v : Nat) (h : v < 64) : encChar v ≠ '=' := by
  intro he
  have h1 := decChar_encChar v h
  rw [he] at h1
  have h2 : decChar '=' = none := by decide
  rw [h2] at h1
  exact Option.noConfusion h1

lemma base64Encode_length (l : List Nat) :
    (base64Encode l).length = 4 * ((l.length + 2) / 3) := by
  induction l using base64Encode.induct with
  | case1 => simp [base64Encode]
  | case2 a => simp [base64Encode]
  | case3 a b => simp [base64Encode]
  | case4 a b c rest ih =>
      simp only [base64Encode, List.length_cons, ih]
      omega

lemma base64Decode_encode (l : List Nat) (hb : ∀ x ∈ l, x < 256) :
    base64Decode (base64Encode l) = some l := by
  induction l using base64Encode.induct with
  | case1 => simp [base64Encode, base64Decode]
  | case2 a =>
      have ha : a < 256 := hb a (by simp)
      have h1 : a / 4 < 64 := by omega
      have h2 : a % 4 * 16 < 64 := by omega
      have e0 : a % 4 * 16 % 16 = 0 := by omega
      have e1 : a / 4 * 4 + a % 4 * 16 / 16 = a := by omega
      simp [base64Encode, base64Decode, decChar_encChar _ h1, decChar_encChar _ h2, e0, e1]
      omega
  | case3 a b =>
      have ha : a < 256 := hb a (by simp)
      have hbb : b < 256 := hb b (by simp)
      have h1 : a / 4 < 64 := by omega
      have h2 : a % 4 * 16 + b / 16 < 64 := by omega
      have h3 : b % 16 * 4 < 64 := by omega
      have e0 : b % 16 * 4 % 4 = 0 := by omega
      have e1 : a / 4 * 4 + (a % 4 * 16 + b / 16) / 16 = a := by omega
      have e2 : (a % 4 * 16 + b / 16) % 16 * 16 + b % 16 * 4 / 4 = b := by omega
      simp [base64Encode, base64Decode, decChar_encChar _ h1, decChar_encChar _ h2,
            encChar_ne_eq _ h3, decChar_encChar _ h3, e0, e1, e2]
      omega
  | case4 a b c rest ih =>
      have ha : a < 256 := hb a (by simp)
      have hbb : b < 256 := hb b (by simp)
      have hc : c < 256 := hb c (by simp)
      have h1 : a / 4 < 64 := by omega
      have h2 : a % 4 * 16 + b / 16 < 64 := by omega
      have h3 : b % 16 * 4 + c / 64 < 64 := by omega
      have h4 : c % 64 < 64 := by omega
      have e1 : a / 4 * 4 + (a % 4 * 16 + b / 16) / 16 = a := by omega
      have e2 : (a % 4 * 16 + b / 16) % 16 * 16 + (b % 16 * 4 + c / 64) / 4 = b := by omega
      have e3 : (b % 16 * 4 + c / 64) % 4 * 64 + c % 64 = c := by omega
      have ih2 := ih (fun x hx => hb x (by simp [hx]))
      simp [base64Encode, base64Decode, decChar_encChar _ h1, decChar_encChar _ h2,
            encChar_ne_eq _ h3, decChar_encChar _ h3, encChar_ne_eq _ h4,
            decChar_encChar _ h4, ih2, e1, e2, e3]

lemma generate_code_length_le (random_bytes : List Nat)
    (h : random_bytes.length = 32) : (generate_code random_bytes).length ≤ 44 := by
  have hf : ((base64Encode random_bytes).filter isTokenChar).length ≤
      (base64Encode random_bytes).length := List.length_filter_le _ _
  have he : (base64Encode random_bytes).length = 44 := by
    rw [base64Encode_length, h]
  have ht : (generate_code random_bytes).length =
      min 48 ((base64Encode random_bytes).filter isTokenChar).length := by
    simp [generate_code]
  omega

lemma generate_token_length_le (random_bytes : List Nat)
    (h : random_bytes.length = 64) : (generate_token random_bytes).length ≤ 88 := by
  have hf : ((base64Encode random_bytes).filter isTokenChar).length ≤
      (base64Encode random_bytes).length := List.length_filter_le _ _
  have he : (base64Encode random_bytes).length = 88 := by
    rw [base64Encode_length, h]
  have ht : (generate_token random_bytes).length =
      min 96 ((base64Encode random_bytes).filter isTokenChar).length := by
    simp [generate_token]
  omega

lemma addKs_length (key nonce : List Nat) (i : Nat) (l : List Nat) :
    (addKs key nonce i l).length = l.length := by
  induction l generalizing i with
  | nil => rfl
  | cons b rest ih => simp [addKs, ih]

lemma ksByte_lt (key nonce : List Nat) (i : Nat) : ksByte key nonce i < 256 := by
  simp [ksByte]
  omega

lemma subKs_addKs (key nonce : List Nat) (i : Nat) (l : List Nat)
    (hb : ∀ x ∈ l, x < 256) : subKs key nonce i (addKs key nonce i l) = l := by
  induction l generalizing i with
  | nil => rfl
  | cons b rest ih =>
      have hb0 : b < 256 := hb b (by simp)
      have hk := ksByte_lt key nonce i
      simp only [addKs, subKs]
      rw [ih (i + 1) (fun x hx => hb x (by simp [hx]))]
      congr 1
      omega

lemma aeadDecrypt_encrypt (key nonce plaintext : List Nat)
    (hb : ∀ x ∈ plaintext, x < 256) :
    aeadDecrypt key nonce (aeadEncrypt key nonce plaintext) = some plaintext := by
  simp only [aeadEncrypt, aeadDecrypt]
  have hct : (addKs key nonce 0 plaintext).length = plaintext.length :=
    addKs_length key nonce 0 plaintext
  have htag : (tagBytes key nonce (addKs key nonce 0 plaintext)).length = 16 := by
    simp [tagBytes]
  have hlen : (addKs key nonce 0 plaintext ++
      tagBytes key nonce (addKs key nonce 0 plaintext)).length =
      plaintext.length + 16 := by
    simp [hct, htag]
  rw [hlen]
  rw [if_neg (by omega)]
  have hsplit : plaintext.length + 16 - 16 = (addKs key nonce 0 plaintext).length := by
    omega
  rw [hsplit]
  rw [List.take_left, List.drop_left]
  rw [if_pos rfl]
  rw [subKs_addKs key nonce 0 plaintext hb]

lemma addKs_lt (key nonce : List Nat) (i : Nat) (l : List Nat) :
    ∀ x ∈ addKs key nonce i l, x < 256 := by
  induction l generalizing i with
  | nil => intro x hx; simp [addKs] at hx
  | cons b rest ih =>
      intro x hx
      simp only [addKs, List.mem_cons] at hx
      rcases hx with h | h
      · omega
      · exact ih (i + 1) x h

lemma tagBytes_lt (key nonce ct : List Nat) :
    ∀ x ∈ tagBytes key nonce ct, x < 256 := by
  intro x hx
  simp only [tagBytes, List.mem_map, List.mem_range] at hx
  obtain ⟨i, _, hi⟩ := hx
  omega

lemma aeadEncrypt_length (key nonce p : List Nat) :
    (aeadEncrypt key nonce p).length = p.length + 16 := by
  simp [aeadEncrypt, addKs_length, tagBytes]

lemma aeadEncrypt_lt (key nonce p : List Nat) :
    ∀ x ∈ aeadEncrypt key nonce p, x < 256 := by
  intro x hx
  simp only [aeadEncrypt, List.mem_append] at hx
  rcases hx with h | h
  · exact addKs_lt key nonce 0 p x h
  · exact tagBytes_lt key nonce _ x h

/-- Vault round trip: decrypting the blob produced by encrypt recovers the
exact plaintext, for any key accepted by TokenCrypto.new, any 12-byte nonce
and any UTF-8-valid plaintext. -/
lemma TokenCrypto.decrypt_encrypt (tc : TokenCrypto) (nonce p : List Nat)
    (hn : nonce.length = 12) (hnb : ∀ x ∈ nonce, x < 256)
    (hpb : ∀ x ∈ p, x < 256) (hutf : utf8Valid p = true) :
    tc.decrypt (tc.encrypt nonce p) = .ok p := by
  have hdata : ∀ x ∈ nonce ++ aeadEncrypt tc.key nonce p, x < 256 := by
    intro x hx
    rcases List.mem_append.mp hx with h | h
    · exact hnb x h
    · exact aeadEncrypt_lt tc.key nonce p x h
  simp only [TokenCrypto.encrypt, TokenCrypto.decrypt, base64Decode_encode _ hdata]
  have hnl : ¬ (nonce ++ aeadEncrypt tc.key nonce p).length < 12 := by
    rw [List.length_append, aeadEncrypt_length, hn]
    omega
  rw [if_neg hnl]
  have h12 : (12 : Nat) = nonce.length := hn.symm
  simp only [h12, List.take_left, List.drop_left,
             aeadDecrypt_encrypt tc.key nonce p hpb]
  simp [stringFromUtf8, hutf]

/-- Inversion of a successful read phase of the token handler. -/
lemma tokenRead_ok_inv (db : Db) (config : Config) (p : TokenRequest) (now : Nat)
    (rd : TokenReadOk) (h : tokenRead db config p now = .ok rd) :
    ∃ row, db.oauth_codes.find?
        (fun r => decide (r.code = p.code ∧ r.client_id = p.client_id)) = some row ∧
      ¬ row.expires_at < now ∧ row.used_at = none ∧
      row.redirect_uri = p.redirect_uri ∧
      rd = { code_id := row.id, user_id := row.user_id, scope := row.scope } := by
  by_cases h1 : p.client_id ≠ config.oauth_client_id ∨
      p.client_secret ≠ config.oauth_client_secret
  · rw [tokenRead, if_pos h1] at h
    exact absurd h (by simp)
  by_cases h2 : p.grant_type ≠ "authorization_code"
  · rw [tokenRead, if_neg h1, if_pos h2] at h
    exact absurd h (by simp)
  rcases hf : db.oauth_codes.find?
      (fun r => decide (r.code = p.code ∧ r.client_id = p.client_id)) with _ | row
  · rw [tokenRead, if_neg h1, if_neg h2, hf] at h
    exact absurd h (by simp)
  rw [tokenRead, if_neg h1, if_neg h2, hf] at h
  by_cases h3 : row.expires_at < now
  · simp [h3] at h
  by_cases h4 : row.used_at.isSome
  · simp [h3, h4] at h
  by_cases h5 : row.redirect_uri ≠ p.redirect_uri
  · simp [h3, h4, h5] at h
  simp [h3, h4, h5] at h
  exact ⟨row, hf, h3, Option.not_isSome_iff_eq_none.mp h4, not_not.mp h5, h.symm⟩

/-- The write phase always leaves the code table equal to the read state with
the row of the carried id marked used. -/
lemma tokenWrite_codes (db : Db) (config : Config) (p : TokenRequest)
    (rd : TokenReadOk) (now : Nat) (rand : List Nat) :
    (tokenWrite db config p rd now rand).2.oauth_codes =
      db.oauth_codes.map
        (fun r => if r.id = rd.code_id then { r with used_at := some now } else r) := by
  simp only [tokenWrite, insertToken]
  split
  · rfl
  · split
    · rfl
    · rename_i heq
      split at heq
      · exact absurd heq (by simp)
      · cases heq
        rfl

/-! ## Claim theorems -/

/-- C7: the claim states that every authorization code has exactly 48
characters and every opaque access token exactly 96.  The implementation
base64-encodes the drawn bytes (44 characters for 32 bytes, 88 for 64,
padding included), filters, and truncates, so no draw can produce more than
44 (respectively 88) characters; at the all-zero draws the outputs have 43
and 86 characters.  This contradicts the unit tests in oauth.rs, which
assert lengths 48 and 96. -/
theorem generated_lengths_fall_short_of_claim :
    (∀ bytes : List Nat, bytes.length = 32 → (generate_code bytes).length ≤ 44)
    ∧ (∀ bytes : List Nat, bytes.length = 64 → (generate_token bytes).length ≤ 88)
    ∧ (generate_code (List.replicate 32 0)).length = 43
    ∧ (generate_token (List.replicate 64 0)).length = 86 :=
  ⟨generate_code_length_le, generate_token_length_le, by decide, by decide⟩

/-- Closed instance of the C7 theorem at the all-zero draw. -/
theorem generated_lengths_fall_short_of_claim_witness :
    (List.replicate 32 (0 : Nat)).length = 32
    ∧ (generate_code (List.replicate 32 0)).length ≤ 44 :=
  ⟨by decide,
   generated_lengths_fall_short_of_claim.1 (List.replicate 32 0) (by decide)⟩

/-- C9: for every vault built from a key that TokenCrypto.new accepts, every
12-byte nonce draw and every plaintext (UTF-8 bytes of a Rust string),
decrypt inverts encrypt exactly. -/
theorem vault_roundtrip (key_base64 : List Char) (tc : TokenCrypto)
    (nonce p : List Nat) (_hnew : TokenCrypto.new key_base64 = .ok tc)
    (hn : nonce.length = 12) (hnb : ∀ x ∈ nonce, x < 256)
    (hpb : ∀ x ∈ p, x < 256) (hutf : utf8Valid p = true) :
    tc.decrypt (tc.encrypt nonce p) = .ok p :=
  TokenCrypto.decrypt_encrypt tc nonce p hn hnb hpb hutf

/-- Closed instance of the C9 round trip on the plaintext hi under the
all-zero key and nonce. -/
theorem vault_roundtrip_witness :
    TokenCrypto.decrypt ⟨List.replicate 32 0⟩
      (TokenCrypto.encrypt ⟨List.replicate 32 0⟩ (List.replicate 12 0) [104, 105]) =
      .ok [104, 105] :=
  vault_roundtrip (base64Encode (List.replicate 32 0)) ⟨List.replicate 32 0⟩
    (List.replicate 12 0) [104, 105] (by decide) (by decide) (by decide)
    (by decide) (by decide)

/-- C8 counterexample: on a structurally malformed blob (not base64), decrypt
fails with an Internal error, not with the Authentication error the claim
requires for every non-faithful input. -/
theorem vault_decrypt_malformed_is_internal_error :
    TokenCrypto.decrypt ⟨List.replicate 32 0⟩ ['%'] =
      .error (.Internal "Invalid encrypted token format")
    ∧ isAuthErrorResult (TokenCrypto.decrypt ⟨List.replicate 32 0⟩ ['%']) = false :=
  ⟨by decide, by decide⟩

/-- C8 amended: decrypt fails closed, with the error kind by failure class:
undecodable base64 and too-short data give Internal errors, an
authentication-tag failure gives the Authentication error, and a recovered
plaintext is returned whole or rejected as Internal when not valid UTF-8;
no branch returns a partial plaintext. -/
theorem vault_decrypt_fails_closed (tc : TokenCrypto) (blob : List Char) :
    (base64Decode blob = none →
      tc.decrypt blob = .error (.Internal "Invalid encrypted token format"))
    ∧ (∀ data, base64Decode blob = some data → data.length < 12 →
      tc.decrypt blob = .error (.Internal "Encrypted token is too short (corrupted?)"))
    ∧ (∀ data, base64Decode blob = some data → ¬ data.length < 12 →
      aeadDecrypt tc.key (data.take 12) (data.drop 12) = none →
      tc.decrypt blob =
        .error (.Authentication "Failed to decrypt token (corrupted or tampered?)"))
    ∧ (∀ data p, base64Decode blob = some data → ¬ data.length < 12 →
      aeadDecrypt tc.key (data.take 12) (data.drop 12) = some p →
      (utf8Valid p = true → tc.decrypt blob = .ok p)
      ∧ (utf8Valid p = false →
        tc.decrypt blob = .error (.Internal "Decrypted token is not valid UTF-8"))) := by
  refine ⟨?_, ?_, ?_, ?_⟩
  · intro h
    simp [TokenCrypto.decrypt, h]
  · intro data h hlt
    simp [TokenCrypto.decrypt, h, hlt]
  · intro data h hlt haead
    simp [TokenCrypto.decrypt, h, hlt, haead]
  · intro data p h hlt haead
    constructor
    · intro hu
      simp [TokenCrypto.decrypt, h, hlt, haead, stringFromUtf8, hu]
    · intro hu
      simp [TokenCrypto.decrypt, h, hlt, haead, stringFromUtf8, hu]

/-- Closed instance of the C8 classification on the undecodable blob. -/
theorem vault_decrypt_fails_closed_witness :
    base64Decode ['%'] = none
    ∧ TokenCrypto.decrypt ⟨List.replicate 32 0⟩ ['%'] =
        .error (.Internal "Invalid encrypted token format") :=
  ⟨by decide, (vault_decrypt_fails_closed ⟨List.replicate 32 0⟩ ['%']).1 (by decide)⟩

/-- C6 counterexample: a validly signed access-kind token with expiry 100 is
still accepted at the instant 100 (its expires_at): jsonwebtoken rejects only
when exp falls below now minus the leeway, so verification does not fail at
every instant at or after expires_at as claimed. -/
theorem verify_jwt_accepts_at_expiry :
    verify_jwt
      (generate_jwt
        { sub := 1, username := "alice", exp := 100, iat := 0,
          token_type := "access" } "s") "s" 100 =
      .ok { sub := 1, username := "alice", exp := 100, iat := 0,
            token_type := "access" } := by
  decide

/-- C6 amended: an issued signed token verifies at every instant now with
now at most expires_at plus the 60-second default leeway (hence in
particular at every instant strictly before expires_at and still at
expires_at itself) and fails verification at every later instant; a
wrong-kind token is rejected even when its signature is valid and it is
unexpired: the gate rejects a verified non-access token with an
authentication error, and the refresh endpoint rejects a verified
access-kind token with an authentication error. -/
theorem signed_token_expiry_and_kind (secret : String) (c : Claims) (now : Nat)
    (db : Db) (config : Config) :
    (now ≤ c.exp + jwtLeeway →
      verify_jwt (generate_jwt c secret) secret now = .ok c)
    ∧ (c.exp + jwtLeeway < now →
      verify_jwt (generate_jwt c secret) secret now = .error (.Jwt "ExpiredSignature"))
    ∧ (∀ tok, verify_jwt tok config.jwt_secret now = .ok c →
      c.token_type ≠ "access" →
      authenticateBearer db config now tok = .error (.Authentication "Invalid token type"))
    ∧ (∀ tok, verify_jwt tok config.jwt_secret now = .ok c →
      c.token_type = "access" →
      refresh db config (some tok) now = .error (.Authentication "Invalid token type")) := by
  refine ⟨?_, ?_, ?_, ?_⟩
  · intro h
    have hlt : ¬ c.exp < now - jwtLeeway := by
      simp only [jwtLeeway] at *
      omega
    simp [generate_jwt, verify_jwt, hlt]
  · intro h
    have hlt : c.exp < now - jwtLeeway := by
      simp only [jwtLeeway] at *
      omega
    simp [generate_jwt, verify_jwt, hlt]
  · intro tok hv hk
    simp [authenticateBearer, hv, hk]
  · intro tok hv hk
    have hk2 : c.token_type ≠ "refresh" := by
      rw [hk]
      decide
    simp [refresh, hv, hk2]

/-- Closed instance of the C6 amended theorem: acceptance strictly before
expiry. -/
theorem signed_token_expiry_and_kind_witness :
    (50 : Nat) ≤ 100 + jwtLeeway
    ∧ verify_jwt
        (generate_jwt
          { sub := 1, username := "alice", exp := 100, iat := 0,
            token_type := "access" } "s") "s" 50 =
        .ok { sub := 1, username := "alice", exp := 100, iat := 0,
              token_type := "access" } :=
  ⟨by decide,
   (signed_token_expiry_and_kind "s"
      { sub := 1, username := "alice", exp := 100, iat := 0,
        token_type := "access" } 50 db1 cfg1).1 (by decide)⟩

/-- C1: the dual-mode gate tries signed-token verification first and accepts
exactly the access kind; on any signed-token failure it falls through to the
exact-match opaque-token lookup, and a matching unexpired record with an
existing owner yields Claims with that record's user as subject, the owner's
username, issued-at now, expires-at the stored expiry and kind access; when
the fallback also fails the request fails with the single Invalid token
authentication error. -/
theorem dual_mode_gate (db : Db) (config : Config) (now : Nat)
    (tok : BearerToken) :
    (∀ c, verify_jwt tok config.jwt_secret now = .ok c → c.token_type = "access" →
      authenticateBearer db config now tok = .ok c)
    ∧ (∀ c, verify_jwt tok config.jwt_secret now = .ok c → c.token_type ≠ "access" →
      authenticateBearer db config now tok = .error (.Authentication "Invalid token type"))
    ∧ (∀ e row user, verify_jwt tok config.jwt_secret now = .error e →
      db.oauth_tokens.find? (fun r => decide (r.token = tok)) = some row →
      ¬ row.expires_at < now →
      db.users.find? (fun u => decide (u.id = row.user_id)) = some user →
      authenticateBearer db config now tok =
        .ok { sub := row.user_id, username := user.username,
              exp := row.expires_at, iat := now, token_type := "access" })
    ∧ (∀ e e2, verify_jwt tok config.jwt_secret now = .error e →
      verify_oauth_token db tok now = .error e2 →
      authenticateBearer db config now tok =
        .error (.Authentication "Invalid token")) := by
  refine ⟨?_, ?_, ?_, ?_⟩
  · intro c hv hk
    simp [authenticateBearer, hv, hk]
  · intro c hv hk
    simp [authenticateBearer, hv, hk]
  · intro e row user hv hrow hexp huser
    simp [authenticateBearer, hv, verify_oauth_token, hrow, hexp, huser]
  · intro e e2 hv ho
    simp [authenticateBearer, hv, ho]

/-- Closed instance of the C1 theorem on the opaque-token path of the db1
fixture. -/
theorem dual_mode_gate_witness :
    authenticateBearer db1 cfg1 0 (.raw ['T']) =
      .ok { sub := tokrow1.user_id, username := user1.username,
            exp := tokrow1.expires_at, iat := 0, token_type := "access" } :=
  (dual_mode_gate db1 cfg1 0 (.raw ['T'])).2.2.1 (.Jwt "InvalidToken") tokrow1
    user1 (by decide) (by decide) (by decide) (by decide)

/-- C2: the token-exchange checks run in the order of the spec with its error
kinds: client-credential mismatch gives the authentication error before
anything else; then an unsupported grant_type gives the validation error;
then a missing code for the client gives the authentication error; then an
expired code the validation error; then an already-used code the
authentication error; then a redirect_uri mismatch the validation error; and
when every check passes (and the write phase finds the user and a fresh
token value) the exchange succeeds. -/
theorem token_exchange_check_order (db : Db) (config : Config)
    (p : TokenRequest) (now : Nat) (rand : List Nat) :
    (p.client_id ≠ config.oauth_client_id ∨ p.client_secret ≠ config.oauth_client_secret →
      (token db config p now rand).1 = .error (.Authentication "Invalid client credentials"))
    ∧ (p.client_id = config.oauth_client_id → p.client_secret = config.oauth_client_secret →
      p.grant_type ≠ "authorization_code" →
      (token db config p now rand).1 =
        .error (.Validation "Only grant_type=authorization_code is supported"))
    ∧ (p.client_id = config.oauth_client_id → p.client_secret = config.oauth_client_secret →
      p.grant_type = "authorization_code" →
      db.oauth_codes.find?
        (fun r => decide (r.code = p.code ∧ r.client_id = p.client_id)) = none →
      (token db config p now rand).1 =
        .error (.Authentication "Authorization code not found"))
    ∧ (∀ row, p.client_id = config.oauth_client_id →
      p.client_secret = config.oauth_client_secret →
      p.grant_type = "authorization_code" →
      db.oauth_codes.find?
        (fun r => decide (r.code = p.code ∧ r.client_id = p.client_id)) = some row →
      row.expires_at < now →
      (token db config p now rand).1 = .error (.Validation "Authorization code expired"))
    ∧ (∀ row, p.client_id = config.oauth_client_id →
      p.client_secret = config.oauth_client_secret →
      p.grant_type = "authorization_code" →
      db.oauth_codes.find?
        (fun r => decide (r.code = p.code ∧ r.client_id = p.client_id)) = some row →
      ¬ row.expires_at < now → row.used_at.isSome →
      (token db config p now rand).1 =
        .error (.Authentication "Authorization code already used"))
    ∧ (∀ row, p.client_id = config.oauth_client_id →
      p.client_secret = config.oauth_client_secret →
      p.grant_type = "authorization_code" →
      db.oauth_codes.find?
        (fun r => decide (r.code = p.code ∧ r.client_id = p.client_id)) = some row →
      ¬ row.expires_at < now → row.used_at = none →
      row.redirect_uri ≠ p.redirect_uri →
      (token db config p now rand).1 = .error (.Validation "Redirect URI mismatch"))
    ∧ (∀ row user, p.client_id = config.oauth_client_id →
      p.client_secret = config.oauth_client_secret →
      p.grant_type = "authorization_code" →
      db.oauth_codes.find?
        (fun r => decide (r.code = p.code ∧ r.client_id = p.client_id)) = some row →
      ¬ row.expires_at < now → row.used_at = none →
      row.redirect_uri = p.redirect_uri →
      db.users.find? (fun u => decide (u.id = row.user_id)) = some user →
      db.oauth_tokens.any
        (fun r => decide (r.token = .raw (generate_token rand))) = false →
      isOkResult (token db config p now rand).1 = true) := by
  refine ⟨?_, ?_, ?_, ?_, ?_, ?_, ?_⟩
  · intro h
    simp only [token, tokenPhased, tokenRead]
    rw [if_pos h]
  · intro hcid hcs hgt
    have hnc : ¬ (p.client_id ≠ config.oauth_client_id ∨
        p.client_secret ≠ config.oauth_client_secret) :=
      fun h => h.elim (fun ha => ha hcid) (fun hb => hb hcs)
    simp only [token, tokenPhased, tokenRead]
    rw [if_neg hnc, if_pos hgt]
  · intro hcid hcs hgt hfind
    have hnc : ¬ (p.client_id ≠ config.oauth_client_id ∨
        p.client_secret ≠ config.oauth_client_secret) :=
      fun h => h.elim (fun ha => ha hcid) (fun hb => hb hcs)
    simp only [token, tokenPhased, tokenRead]
    rw [if_neg hnc, if_neg (not_not_intro hgt), hfind]
  · intro row hcid hcs hgt hfind hexp
    have hnc : ¬ (p.client_id ≠ config.oauth_client_id ∨
        p.client_secret ≠ config.oauth_client_secret) :=
      fun h => h.elim (fun ha => ha hcid) (fun hb => hb hcs)
    simp only [token, tokenPhased, tokenRead]
    rw [if_neg hnc, if_neg (not_not_intro hgt), hfind]
    simp [hexp]
  · intro row hcid hcs hgt hfind hexp hused
    have hnc : ¬ (p.client_id ≠ config.oauth_client_id ∨
        p.client_secret ≠ config.oauth_client_secret) :=
      fun h => h.elim (fun ha => ha hcid) (fun hb => hb hcs)
    simp only [token, tokenPhased, tokenRead]
    rw [if_neg hnc, if_neg (not_not_intro hgt), hfind]
    simp [hexp, hused]
  · intro row hcid hcs hgt hfind hexp hused hred
    have hnc : ¬ (p.client_id ≠ config.oauth_client_id ∨
        p.client_secret ≠ config.oauth_client_secret) :=
      fun h => h.elim (fun ha => ha hcid) (fun hb => hb hcs)
    simp only [token, tokenPhased, tokenRead]
    rw [if_neg hnc, if_neg (not_not_intro hgt), hfind]
    simp [hexp, hused, hred]
  · intro row user hcid hcs hgt hfind hexp hused hred huser hfresh
    have hnc : ¬ (p.client_id ≠ config.oauth_client_id ∨
        p.client_secret ≠ config.oauth_client_secret) :=
      fun h => h.elim (fun ha => ha hcid) (fun hb => hb hcs)
    simp only [token, tokenPhased, tokenRead]
    rw [if_neg hnc, if_neg (not_not_intro hgt), hfind]
    simp [hexp, hused, not_not_intro hred, tokenWrite, huser, insertToken, hfresh,
          isOkResult]

/-- Closed instance of the C2 theorem: a wrong client secret is rejected with
the authentication error. -/
theorem token_exchange_check_order_witness :
    (token db1 cfg1
      { client_id := "cid", client_secret := "bad", code := ['C'],
        grant_type := "authorization_code", redirect_uri := "R" } 0
      (List.replicate 64 0)).1 =
      .error (.Authentication "Invalid client credentials") :=
  (token_exchange_check_order db1 cfg1
    { client_id := "cid", client_secret := "bad", code := ['C'],
      grant_type := "authorization_code", redirect_uri := "R" } 0
    (List.replicate 64 0)).1 (by decide)

/-- C3: a code is redeemable at most once.  A successful exchange leaves the
matching code row marked used at the exchange time; a later well-formed
exchange presenting a code whose row is marked used fails with the
already-used authentication error even while the code is unexpired; and no
operation of the subsystem (token exchange or authorize) ever clears a set
used_at: every code row that is marked used keeps a marked used_at in the
successor state. -/
theorem auth_code_single_use (db : Db) (config : Config) (p : TokenRequest)
    (now : Nat) (rand : List Nat) :
    (∀ resp db2, token db config p now rand = (.ok resp, db2) →
      ∃ r ∈ db2.oauth_codes, r.code = p.code ∧ r.client_id = p.client_id ∧
        r.used_at = some now)
    ∧ (∀ row now2 rand2,
      p.client_id = config.oauth_client_id →
      p.client_secret = config.oauth_client_secret →
      p.grant_type = "authorization_code" →
      db.oauth_codes.find?
        (fun r => decide (r.code = p.code ∧ r.client_id = p.client_id)) = some row →
      row.used_at.isSome → ¬ row.expires_at < now2 →
      (token db config p now2 rand2).1 =
        .error (.Authentication "Authorization code already used"))
    ∧ (∀ i r, db.oauth_codes.get? i = some r → r.used_at.isSome = true →
      ∃ r2, (token db config p now rand).2.oauth_codes.get? i = some r2 ∧
        r2.used_at.isSome = true)
    ∧ (∀ (claims : Claims) (params : AuthorizeRequest) (rand2 : List Nat) i r,
      db.oauth_codes.get? i = some r → r.used_at.isSome = true →
      ∃ r2, (authorize db config claims params now rand2).2.oauth_codes.get? i =
        some r2 ∧ r2.used_at.isSome = true) := by
  refine ⟨?_, ?_, ?_, ?_⟩
  · intro resp db2 hsucc
    cases hr : tokenRead db config p now with
    | error e =>
        rw [token, hr] at hsucc
        simp [tokenPhased] at hsucc
    | ok rd =>
        obtain ⟨row, hf, hexp, hused, hred, hrd⟩ := tokenRead_ok_inv db config p now rd hr
        have hdb2 : db2 = (tokenWrite db config p rd now rand).2 := by
          rw [token, hr] at hsucc
          simp only [tokenPhased] at hsucc
          exact (congrArg Prod.snd hsucc).symm
        have hcodes : db2.oauth_codes = db.oauth_codes.map
            (fun r => if r.id = rd.code_id then { r with used_at := some now } else r) := by
          rw [hdb2, tokenWrite_codes]
        refine ⟨{ row with used_at := some now }, ?_, ?_, ?_, rfl⟩
        · rw [hcodes]
          have hmem : row ∈ db.oauth_codes := List.mem_of_find?_eq_some hf
          have hrow_id : row.id = rd.code_id := by rw [hrd]
          have hm := List.mem_map_of_mem
            (fun r => if r.id = rd.code_id then { r with used_at := some now } else r) hmem
          simpa [hrow_id] using hm
        · have hp := List.find?_some hf
          exact (of_decide_eq_true hp).1
        · have hp := List.find?_some hf
          exact (of_decide_eq_true hp).2
  · intro row now2 rand2 hcid hcs hgt hfind husedSome hnexp
    have hnc : ¬ (p.client_id ≠ config.oauth_client_id ∨
        p.client_secret ≠ config.oauth_client_secret) :=
      fun h => h.elim (fun ha => ha hcid) (fun hb => hb hcs)
    simp only [token, tokenPhased, tokenRead]
    rw [if_neg hnc, if_neg (not_not_intro hgt), hfind]
    simp [hnexp, husedSome]
  · intro i r hget hsome
    cases hr : tokenRead db config p now with
    | error e =>
        have hcodes : (token db config p now rand).2.oauth_codes = db.oauth_codes := by
          rw [token, hr]
          rfl
        exact ⟨r, by rw [hcodes]; exact hget, hsome⟩
    | ok rd =>
        have hcodes : (token db config p now rand).2.oauth_codes =
            db.oauth_codes.map
              (fun x => if x.id = rd.code_id then { x with used_at := some now } else x) := by
          rw [token, hr]
          simp only [tokenPhased]
          exact tokenWrite_codes db config p rd now rand
        refine ⟨if r.id = rd.code_id then { r with used_at := some now } else r, ?_, ?_⟩
        · rw [hcodes, List.get?_map, hget]
          rfl
        · by_cases hid : r.id = rd.code_id <;> simp [hid, hsome]
  · intro claims params rand2 i r hget hsome
    by_cases h1 : params.client_id ≠ config.oauth_client_id
    · refine ⟨r, ?_, hsome⟩
      simp only [authorize, if_pos h1]
      exact hget
    by_cases h2 : params.response_type ≠ "code"
    · refine ⟨r, ?_, hsome⟩
      simp only [authorize, if_neg h1, if_pos h2]
      exact hget
    by_cases h3 : db.oauth_codes.any (fun rr => decide (rr.code = generate_code rand2))
    · refine ⟨r, ?_, hsome⟩
      simp only [authorize, insertCode, if_neg h1, if_neg h2, if_pos h3]
      exact hget
    · refine ⟨r, ?_, hsome⟩
      have hlen : i < db.oauth_codes.length := by
        rcases List.get?_eq_some.mp hget with ⟨hl, _⟩
        exact hl
      simp only [authorize, insertCode, if_neg h1, if_neg h2, if_neg h3]
      rw [List.get?_append hlen]
      exact hget

/-- Closed instance of the C3 theorem: an already-used, still-unexpired code
is rejected with the already-used authentication error. -/
theorem auth_code_single_use_witness :
    (token db3 cfg1 req1 5 (List.replicate 64 0)).1 =
      .error (.Authentication "Authorization code already used") :=
  (auth_code_single_use db3 cfg1 req1 5 (List.replicate 64 0)).2.1 code1u 5
    (List.replicate 64 0) (by decide) (by decide) (by decide) (by decide)
    (by decide) (by decide)

/-- C4: the claim requires that of two concurrent exchanges of one valid
unused code at most one succeeds.  The handler reads the row, checks used_at
in application code and only then updates, so under the schedule in which
both reads precede both writes each attempt observes used_at null: both
succeed and two opaque tokens are minted for the one code, contradicting the
claim (the spec itself mandates an atomic conditional update instead). -/
theorem token_race_two_successes :
    isOkResult (tokenInterleavedRRWW db4 cfg1 req1 req1 0
       (List.replicate 64 0) (List.replicate 64 1)).1.1 = true
    ∧ isOkResult (tokenInterleavedRRWW db4 cfg1 req1 req1 0
       (List.replicate 64 0) (List.replicate 64 1)).1.2 = true
    ∧ (tokenInterleavedRRWW db4 cfg1 req1 req1 0
       (List.replicate 64 0) (List.replicate 64 1)).2.oauth_tokens.length = 2 :=
  ⟨by decide, by decide, by decide⟩

/-- C5: the claim states the exchange writes run in a single transaction so
the code is never left marked used without an issued token.  The handler runs
its statements directly on the pool: when the access-token INSERT fails (here
by colliding with an existing token value), the exchange returns an error
while the code row stays marked used and no token was stored. -/
theorem token_partial_write_no_transaction :
    (token db5 cfg1 req1 0 (List.replicate 64 0)).1 =
      .error (.Database "duplicate key value violates unique constraint oauth_tokens_pkey")
    ∧ (token db5 cfg1 req1 0 (List.replicate 64 0)).2.oauth_codes =
      [{ code1 with used_at := some 0 }]
    ∧ (token db5 cfg1 req1 0 (List.replicate 64 0)).2.oauth_tokens = db5.oauth_tokens :=
  ⟨by decide, by decide, by decide⟩

/-- C10: when the connector upsert hits an existing (user_id, provider) row,
only encrypted_token and updated_at of that row change: every row keeps its
is_active, last_used_at, id, user_id, provider and created_at (so a
soft-disabled connector stays disabled after its secret is overwritten), the
hit row receives the fresh ciphertext and timestamp, every other row is
wholly unchanged, and no row is added or removed. -/
theorem connector_upsert_preserves_flags (db : Db) (config : Config)
    (claims : Claims) (payload : CreateConnectorRequest) (now : Nat)
    (nonce : List Nat) (crypto : TokenCrypto) (r0 : ConnectorRow)
    (hv : validate_provider payload.provider = .ok ())
    (hne : (strTrim payload.api_token).isEmpty = false)
    (hc : TokenCrypto.new config.encryption_key = .ok crypto)
    (hf : db.connectors.find?
      (fun r => decide (r.user_id = claims.sub ∧ r.provider = payload.provider)) =
      some r0) :
    (create_or_update_connector db config claims payload now nonce).1 =
      .ok { r0 with
            encrypted_token := crypto.encrypt nonce (strBytes payload.api_token),
            updated_at := now }
    ∧ (create_or_update_connector db config claims payload now nonce).2.connectors.length
        = db.connectors.length
    ∧ (∀ i r, db.connectors.get? i = some r →
      ∃ r2, (create_or_update_connector db config claims payload now nonce).2.connectors.get? i
          = some r2
        ∧ r2.is_active = r.is_active
        ∧ r2.last_used_at = r.last_used_at
        ∧ r2.id = r.id ∧ r2.user_id = r.user_id
        ∧ r2.provider = r.provider ∧ r2.created_at = r.created_at
        ∧ (r.user_id = claims.sub ∧ r.provider = payload.provider →
            r2.encrypted_token = crypto.encrypt nonce (strBytes payload.api_token)
            ∧ r2.updated_at = now)
        ∧ (¬ (r.user_id = claims.sub ∧ r.provider = payload.provider) → r2 = r)) := by
  have hf2 : db.connectors.find?
      (fun r => decide (r.user_id = claims.sub) && decide (r.provider = payload.provider)) =
      some r0 := by simpa using hf
  have h1 : (create_or_update_connector db config claims payload now nonce).1 =
      .ok { r0 with
            encrypted_token := crypto.encrypt nonce (strBytes payload.api_token),
            updated_at := now } := by
    simp [create_or_update_connector, hv, hne, hc, hf2]
  have h2 : (create_or_update_connector db config claims payload now nonce).2.connectors =
      db.connectors.map (fun r =>
        if r.user_id = claims.sub ∧ r.provider = payload.provider
        then { r with
               encrypted_token := crypto.encrypt nonce (strBytes payload.api_token),
               updated_at := now }
        else r) := by
    simp [create_or_update_connector, hv, hne, hc, hf2]
  refine ⟨h1, by rw [h2]; simp, ?_⟩
  intro i r hget
  refine ⟨if r.user_id = claims.sub ∧ r.provider = payload.provider
    then { r with
           encrypted_token := crypto.encrypt nonce (strBytes payload.api_token),
           updated_at := now }
    else r, ?_, ?_⟩
  · rw [h2]
    simp only [List.get?_map, hget]
    rfl
  · by_cases hcond : r.user_id = claims.sub ∧ r.provider = payload.provider <;>
      simp [hcond]

/-- Closed instance of the C10 theorem: overwriting the secret of the
disabled anthropic connector of db6 leaves it disabled with its last_used_at
intact. -/
theorem connector_upsert_preserves_flags_witness :
    ∃ r2, (create_or_update_connector db6 cfg1
        { sub := 1, username := "alice", exp := 100, iat := 0,
          token_type := "access" }
        { provider := "anthropic", api_token := "tok" } 9
        (List.replicate 12 0)).2.connectors.get? 0 = some r2
      ∧ r2.is_active = conn1.is_active
      ∧ r2.last_used_at = conn1.last_used_at
      ∧ r2.id = conn1.id ∧ r2.user_id = conn1.user_id
      ∧ r2.provider = conn1.provider ∧ r2.created_at = conn1.created_at
      ∧ (conn1.user_id =
          ({ sub := 1, username := "alice", exp := 100, iat := 0,
             token_type := "access" } : Claims).sub
          ∧ conn1.provider =
            ({ provider := "anthropic", api_token := "tok" } :
              CreateConnectorRequest).provider →
          r2.encrypted_token =
            TokenCrypto.encrypt ⟨List.replicate 32 0⟩ (List.replicate 12 0)
              (strBytes ({ provider := "anthropic", api_token := "tok" } :
                CreateConnectorRequest).api_token)
          ∧ r2.updated_at = 9)
      ∧ (¬ (conn1.user_id =
            ({ sub := 1, username := "alice", exp := 100, iat := 0,
               token_type := "access" } : Claims).sub
            ∧ conn1.provider =
              ({ provider := "anthropic", api_token := "tok" } :
                CreateConnectorRequest).provider) → r2 = conn1) :=
  (connector_upsert_preserves_flags db6 cfg1
    { sub := 1, username := "alice", exp := 100, iat := 0, token_type := "access" }
    { provider := "anthropic", api_token := "tok" } 9 (List.replicate 12 0)
    ⟨List.replicate 32 0⟩ conn1 (by decide) (by decide) (by decide)
    (by decide)).2.2 0 conn1 (by decide)
